import Mathlib

/-!
# Verification of the ANDRTF3 temperature-sensor acquisition core

Shallow embedding of the ANDRTF3 Modbus temperature driver
(`ANDRTF3.cpp` / `ANDRTF3.h`): the value classification performed inside
`performRead` / `requestTemperature`, the reading store, the connected /
consecutive-error fault state, the async-pending staleness check, and the
bound output slots.  Machine integers are modelled as `Nat` / `Int` with
explicit `% 2^w` at the points where the C++ code casts or wraps.
-/

set_option autoImplicit false

namespace ANDRTF3

/-- The `ModbusError` enum from the transport layer (`ModbusTypes.h`),
as matched by `modbusErrorToString`. -/
inductive ModbusError where
  | SUCCESS
  | ILLEGAL_FUNCTION
  | ILLEGAL_DATA_ADDRESS
  | ILLEGAL_DATA_VALUE
  | SLAVE_DEVICE_FAILURE
  | TIMEOUT
  | CRC_ERROR
  | INVALID_RESPONSE
  | QUEUE_FULL
  | NOT_INITIALIZED
  | COMMUNICATION_ERROR
  | INVALID_PARAMETER
  | RESOURCE_ERROR
  | NULL_POINTER
  | NOT_SUPPORTED
  | MUTEX_ERROR
  | INVALID_DATA_LENGTH
  | DEVICE_NOT_FOUND
  | RESOURCE_CREATION_FAILED
  | INVALID_ADDRESS
  deriving DecidableEq, Repr

/-- `modbusErrorToString` from `ANDRTF3.cpp`. -/
def modbusErrorToString : ModbusError → String
  | .SUCCESS => "Success"
  | .ILLEGAL_FUNCTION => "Illegal function"
  | .ILLEGAL_DATA_ADDRESS => "Illegal data address"
  | .ILLEGAL_DATA_VALUE => "Illegal data value"
  | .SLAVE_DEVICE_FAILURE => "Slave device failure"
  | .TIMEOUT => "Timeout"
  | .CRC_ERROR => "CRC error"
  | .INVALID_RESPONSE => "Invalid response"
  | .QUEUE_FULL => "Queue full"
  | .NOT_INITIALIZED => "Not initialized"
  | .COMMUNICATION_ERROR => "Communication error"
  | .INVALID_PARAMETER => "Invalid parameter"
  | .RESOURCE_ERROR => "Resource error"
  | .NULL_POINTER => "Null pointer"
  | .NOT_SUPPORTED => "Not supported"
  | .MUTEX_ERROR => "Mutex error"
  | .INVALID_DATA_LENGTH => "Invalid data length"
  | .DEVICE_NOT_FOUND => "Device not found"
  | .RESOURCE_CREATION_FAILED => "Resource creation failed"
  | .INVALID_ADDRESS => "Invalid address"

/-- Outcome of `readInputRegistersWithPriority`: either a list of raw
16-bit register values (`result.value()`) or a `ModbusError`
(`result.error()` when `!result.isOk()`). -/
inductive TransportResult where
  | ok (values : List Nat)
  | err (e : ModbusError)
  deriving DecidableEq, Repr

/-- `ANDRTF3::Config` (`uint8_t address; uint16_t timeout; uint8_t retries`). -/
structure Config where
  address : Nat
  timeout : Nat
  retries : Nat
  deriving DecidableEq, Repr

/-- `ANDRTF3::TemperatureData`: `int16_t celsius`, `uint32_t timestamp`,
`bool valid`, `String error`. -/
structure TemperatureData where
  celsius : Int
  timestamp : Nat
  valid : Bool
  error : String
  deriving DecidableEq, Repr

/-- Contents of the two externally-owned cells an instance can be bound
to via `bindTemperaturePointers` (`*_temperaturePtr`, `*_validityPtr`). -/
structure Slots where
  temp : Int
  validFlag : Bool
  deriving DecidableEq, Repr

/-- The mutable state of one `ANDRTF3` instance, together with the
contents of the (potentially) bound external cells.  `tempBound` and
`validBound` record whether `_temperaturePtr` / `_validityPtr` are
non-null. -/
structure State where
  config : Config
  lastReading : TemperatureData
  connected : Bool
  asyncPending : Bool
  asyncStartTime : Nat
  tempBound : Bool
  validBound : Bool
  slots : Slots
  consecutive0x0000Errors : Nat
  lastErrorTime : Nat
  deriving DecidableEq, Repr

/-- `TEMP_MIN = -400` (−40.0 °C), from `ANDRTF3.h`. -/
def TEMP_MIN : Int := -400

/-- `TEMP_MAX = 1250` (+125.0 °C), from `ANDRTF3.h`. -/
def TEMP_MAX : Int := 1250

/-- `static_cast<int16_t>` applied to a `uint16_t` value: reinterpret
the low 16 bits as a signed 16-bit integer. -/
def toInt16 (raw : Nat) : Int :=
  if raw % 65536 < 32768 then (raw % 65536 : Int) else (raw % 65536 : Int) - 65536

/-- `uint32_t` subtraction `now - start` with wraparound, as in
`millis() - _asyncStartTime`. -/
def u32sub (now start : Nat) : Nat :=
  (now % 4294967296 + 4294967296 - start % 4294967296) % 4294967296

/-- `ANDRTF3::getDefaultConfig()`: `{3, 200, 3}`. -/
def getDefaultConfig : Config :=
  { address := 3, timeout := 200, retries := 3 }

/-- The `ANDRTF3` constructor: takes a `uint8_t` address, sets
`_config = getDefaultConfig()` then `_config.address = address`, zeroes
the reading (`valid=false`, default-constructed `error` is empty) and the
error counter, and leaves the binding pointers null.  The contents of the
outside cells (not owned by the driver) are a parameter. -/
def mkANDRTF3 (address : Nat) (cells : Slots) : State :=
  { config := { getDefaultConfig with address := address % 256 }
    lastReading := { celsius := 0, timestamp := 0, valid := false, error := "" }
    connected := false
    asyncPending := false
    asyncStartTime := 0
    tempBound := false
    validBound := false
    slots := cells
    consecutive0x0000Errors := 0
    lastErrorTime := 0 }

/-- `ANDRTF3::setConfig`: stores the given config verbatim. -/
def setConfig (s : State) (c : Config) : State :=
  { s with config := c }

/-- `ANDRTF3::bindTemperaturePointers`: records which of the two
pointers are non-null (the cells themselves are external). -/
def bindTemperaturePointers (s : State) (tempBound validBound : Bool) : State :=
  { s with tempBound := tempBound, validBound := validBound }

/-- `ANDRTF3::getTemperature`: returns `_lastReading.celsius`. -/
def getTemperature (s : State) : Int :=
  s.lastReading.celsius

/-- `ANDRTF3::getAsyncResult`: copies `_lastReading` out and returns
`_lastReading.valid`; does not mutate the state. -/
def getAsyncResult (s : State) : TemperatureData × Bool :=
  (s.lastReading, s.lastReading.valid)

/-- `ANDRTF3::isReadComplete`. -/
def isReadComplete (s : State) : Bool :=
  !s.asyncPending

/-- `ANDRTF3::performRead`, parametrised by the transport outcome `tr`
of `readInputRegistersWithPriority(TEMP_REGISTER, 1, SENSOR)` and the
current `millis()` value `now`.  Returns the `bool` result and the
updated state. -/
def performRead (s : State) (tr : TransportResult) (now : Nat) : Bool × State :=
  match tr with
  | .err e =>
      (false,
        { s with
          lastReading :=
            { s.lastReading with valid := false, error := modbusErrorToString e }
          connected := false })
  | .ok [] =>
      (false,
        { s with
          lastReading :=
            { s.lastReading with valid := false, error := "No data returned" }
          connected := false })
  | .ok (v :: _) =>
      let raw := v % 65536
      let rawValue := toInt16 raw
      if rawValue = 0 ∨ raw = 65535 then
        let c := (s.consecutive0x0000Errors + 1) % 256
        (false,
          { s with
            consecutive0x0000Errors := c
            lastReading :=
              { s.lastReading with
                valid := false
                error :=
                  if raw = 65535 then "Modbus error 0xFFFF"
                  else "Sensor returned 0x0000" }
            connected := decide (c < 3)
            lastErrorTime := now })
      else if rawValue < TEMP_MIN ∨ rawValue > TEMP_MAX then
        (false,
          { s with
            lastReading :=
              { s.lastReading with valid := false, error := "Temperature out of range" }
            connected := false })
      else
        (true,
          { s with
            lastReading :=
              { celsius := rawValue, timestamp := now, valid := true, error := "" }
            connected := true
            consecutive0x0000Errors := 0 })

/-- `ANDRTF3::readTemperature`: runs `performRead` and forces
`_connected = false` whenever it failed. -/
def readTemperature (s : State) (tr : TransportResult) (now : Nat) : Bool × State :=
  let r := performRead s tr now
  if r.1 then r else (false, { r.2 with connected := false })

/-- `ANDRTF3::requestTemperature`: clears a stale pending flag
(`millis() - _asyncStartTime > _config.timeout`), refuses if still
pending, otherwise marks pending, records the start time, performs the
read inline, updates the bound cells on success, and clears pending. -/
def requestTemperature (s : State) (tr : TransportResult) (now : Nat) : Bool × State :=
  let s :=
    if s.asyncPending ∧ u32sub now s.asyncStartTime > s.config.timeout then
      { s with asyncPending := false }
    else s
  if s.asyncPending then
    (false, s)
  else
    let s := { s with asyncPending := true, asyncStartTime := now }
    match tr with
    | .err e =>
        (false,
          { s with
            asyncPending := false
            lastReading :=
              { s.lastReading with valid := false, error := modbusErrorToString e }
            connected := false })
    | .ok [] =>
        (false,
          { s with
            asyncPending := false
            lastReading :=
              { s.lastReading with valid := false, error := "No data returned" }
            connected := false })
    | .ok (v :: _) =>
        let raw := v % 65536
        let rawValue := toInt16 raw
        if rawValue = 0 ∨ raw = 65535 then
          let c := (s.consecutive0x0000Errors + 1) % 256
          (false,
            { s with
              asyncPending := false
              consecutive0x0000Errors := c
              lastReading :=
                { s.lastReading with
                  valid := false
                  error :=
                    if raw = 65535 then "Modbus error 0xFFFF"
                    else "Sensor returned 0x0000" }
              connected := decide (c < 3)
              lastErrorTime := now })
        else if rawValue < TEMP_MIN ∨ rawValue > TEMP_MAX then
          (false,
            { s with
              asyncPending := false
              lastReading :=
                { s.lastReading with valid := false, error := "Temperature out of range" }
              connected := false })
        else
          let s :=
            { s with
              lastReading :=
                { celsius := rawValue, timestamp := now, valid := true, error := "" }
              connected := true
              consecutive0x0000Errors := 0 }
          let s := if s.tempBound then { s with slots := { s.slots with temp := rawValue } } else s
          let s := if s.validBound then { s with slots := { s.slots with validFlag := true } } else s
          (true, { s with asyncPending := false })

/-- Valid classification of a transport outcome: the transport succeeded,
returned at least one register, the value is not one of the two sentinels
(`0x0000`, `0xFFFF`), and reinterpreted as signed it lies in the physical
envelope `[TEMP_MIN, TEMP_MAX]`. -/
def isValidClassification : TransportResult → Prop
  | .err _ => False
  | .ok [] => False
  | .ok (v :: _) =>
      ¬(toInt16 (v % 65536) = 0 ∨ v % 65536 = 65535) ∧
      TEMP_MIN ≤ toInt16 (v % 65536) ∧ toInt16 (v % 65536) ≤ TEMP_MAX

/-- The reading-store invariant: a valid reading has an empty error text
and a value inside the physical envelope. -/
def ReadingInv (s : State) : Prop :=
  s.lastReading.valid = true →
    s.lastReading.error = "" ∧
    TEMP_MIN ≤ s.lastReading.celsius ∧ s.lastReading.celsius ≤ TEMP_MAX

/-- States reachable from construction by synchronous reads, async
requests, configuration and binding changes (result fetches via
`getAsyncResult` / `getTemperature` do not mutate the state). -/
inductive Reachable : State → Prop
  | init (address : Nat) (cells : Slots) : Reachable (mkANDRTF3 address cells)
  | setCfg (s : State) (c : Config) : Reachable s → Reachable (setConfig s c)
  | bindPtrs (s : State) (tb vb : Bool) : Reachable s →
      Reachable (bindTemperaturePointers s tb vb)
  | syncRead (s : State) (tr : TransportResult) (now : Nat) : Reachable s →
      Reachable (readTemperature s tr now).2
  | asyncReq (s : State) (tr : TransportResult) (now : Nat) : Reachable s →
      Reachable (requestTemperature s tr now).2

/-- The configuration invariant claimed by the specification: address in
`[1, 247]` and a strictly positive timeout. -/
def ConfigOK (c : Config) : Prop :=
  1 ≤ c.address ∧ c.address ≤ 247 ∧ 0 < c.timeout

/-- States reachable by construction and `setConfig` calls when the
caller only ever supplies conforming inputs (the code itself performs
no validation). -/
inductive ConfigReachable : State → Prop
  | init (address : Nat) (cells : Slots) (h1 : 1 ≤ address) (h2 : address ≤ 247) :
      ConfigReachable (mkANDRTF3 address cells)
  | setCfg (s : State) (c : Config) (h : ConfigReachable s) (hc : ConfigOK c) :
      ConfigReachable (setConfig s c)

/-! ## Basic facts about the embedding -/

lemma toInt16_eq_zero_iff {raw : Nat} (h : raw < 65536) : toInt16 raw = 0 ↔ raw = 0 := by
  unfold toInt16
  rw [Nat.mod_eq_of_lt h]
  split <;> omega

lemma performRead_err (s : State) (e : ModbusError) (now : Nat) :
    performRead s (.err e) now =
      (false,
        { s with
          lastReading :=
            { s.lastReading with valid := false, error := modbusErrorToString e }
          connected := false }) := rfl

lemma performRead_nil (s : State) (now : Nat) :
    performRead s (.ok []) now =
      (false,
        { s with
          lastReading :=
            { s.lastReading with valid := false, error := "No data returned" }
          connected := false }) := rfl

lemma performRead_sentinel (s : State) (v : Nat) (rest : List Nat) (now : Nat)
    (hz : toInt16 (v % 65536) = 0 ∨ v % 65536 = 65535) :
    performRead s (.ok (v :: rest)) now =
      (false,
        { s with
          consecutive0x0000Errors := (s.consecutive0x0000Errors + 1) % 256
          lastReading :=
            { s.lastReading with
              valid := false
              error :=
                if v % 65536 = 65535 then "Modbus error 0xFFFF"
                else "Sensor returned 0x0000" }
          connected := decide ((s.consecutive0x0000Errors + 1) % 256 < 3)
          lastErrorTime := now }) := by
  simp [performRead, hz]

lemma performRead_range (s : State) (v : Nat) (rest : List Nat) (now : Nat)
    (hz : ¬(toInt16 (v % 65536) = 0 ∨ v % 65536 = 65535))
    (hr : toInt16 (v % 65536) < TEMP_MIN ∨ TEMP_MAX < toInt16 (v % 65536)) :
    performRead s (.ok (v :: rest)) now =
      (false,
        { s with
          lastReading :=
            { s.lastReading with valid := false, error := "Temperature out of range" }
          connected := false }) := by
  simp [performRead, hz, hr]

lemma performRead_valid (s : State) (v : Nat) (rest : List Nat) (now : Nat)
    (hz : ¬(toInt16 (v % 65536) = 0 ∨ v % 65536 = 65535))
    (hr : ¬(toInt16 (v % 65536) < TEMP_MIN ∨ TEMP_MAX < toInt16 (v % 65536))) :
    performRead s (.ok (v :: rest)) now =
      (true,
        { s with
          lastReading :=
            { celsius := toInt16 (v % 65536), timestamp := now, valid := true, error := "" }
          connected := true
          consecutive0x0000Errors := 0 }) := by
  simp [performRead, hz, hr]

lemma readTemperature_fst (s : State) (tr : TransportResult) (now : Nat) :
    (readTemperature s tr now).1 = (performRead s tr now).1 := by
  simp only [readTemperature]
  split <;> simp_all

lemma readTemperature_of_success (s : State) (tr : TransportResult) (now : Nat)
    (h : (performRead s tr now).1 = true) :
    readTemperature s tr now = performRead s tr now := by
  simp only [readTemperature]
  split <;> simp_all

lemma readTemperature_of_failure (s : State) (tr : TransportResult) (now : Nat)
    (h : (performRead s tr now).1 = false) :
    readTemperature s tr now = (false, { (performRead s tr now).2 with connected := false }) := by
  simp only [readTemperature]
  split <;> simp_all

lemma requestTemperature_blocked (s : State) (tr : TransportResult) (now : Nat)
    (hp : s.asyncPending = true)
    (hfresh : ¬ u32sub now s.asyncStartTime > s.config.timeout) :
    requestTemperature s tr now = (false, s) := by
  simp [requestTemperature, hp, hfresh]

lemma requestTemperature_stale (s : State) (tr : TransportResult) (now : Nat)
    (hp : s.asyncPending = true)
    (hstale : u32sub now s.asyncStartTime > s.config.timeout) :
    requestTemperature s tr now =
      requestTemperature { s with asyncPending := false } tr now := by
  simp [requestTemperature, hp, hstale]

lemma requestTemperature_err (s : State) (e : ModbusError) (now : Nat)
    (hp : s.asyncPending = false) :
    requestTemperature s (.err e) now =
      (false,
        { s with
          asyncStartTime := now
          lastReading :=
            { s.lastReading with valid := false, error := modbusErrorToString e }
          connected := false }) := by
  simp only [requestTemperature, hp]
  simp [hp]

lemma requestTemperature_nil (s : State) (now : Nat)
    (hp : s.asyncPending = false) :
    requestTemperature s (.ok []) now =
      (false,
        { s with
          asyncStartTime := now
          lastReading :=
            { s.lastReading with valid := false, error := "No data returned" }
          connected := false }) := by
  simp only [requestTemperature, hp]
  simp [hp]

lemma requestTemperature_sentinel (s : State) (v : Nat) (rest : List Nat) (now : Nat)
    (hp : s.asyncPending = false)
    (hz : toInt16 (v % 65536) = 0 ∨ v % 65536 = 65535) :
    requestTemperature s (.ok (v :: rest)) now =
      (false,
        { s with
          asyncStartTime := now
          consecutive0x0000Errors := (s.consecutive0x0000Errors + 1) % 256
          lastReading :=
            { s.lastReading with
              valid := false
              error :=
                if v % 65536 = 65535 then "Modbus error 0xFFFF"
                else "Sensor returned 0x0000" }
          connected := decide ((s.consecutive0x0000Errors + 1) % 256 < 3)
          lastErrorTime := now }) := by
  simp only [requestTemperature, hp]
  simp [hz, hp]

lemma requestTemperature_range (s : State) (v : Nat) (rest : List Nat) (now : Nat)
    (hp : s.asyncPending = false)
    (hz : ¬(toInt16 (v % 65536) = 0 ∨ v % 65536 = 65535))
    (hr : toInt16 (v % 65536) < TEMP_MIN ∨ TEMP_MAX < toInt16 (v % 65536)) :
    requestTemperature s (.ok (v :: rest)) now =
      (false,
        { s with
          asyncStartTime := now
          lastReading :=
            { s.lastReading with valid := false, error := "Temperature out of range" }
          connected := false }) := by
  simp only [requestTemperature, hp]
  simp [hz, hr, hp]

lemma requestTemperature_valid (s : State) (v : Nat) (rest : List Nat) (now : Nat)
    (hp : s.asyncPending = false)
    (hz : ¬(toInt16 (v % 65536) = 0 ∨ v % 65536 = 65535))
    (hr : ¬(toInt16 (v % 65536) < TEMP_MIN ∨ TEMP_MAX < toInt16 (v % 65536))) :
    requestTemperature s (.ok (v :: rest)) now =
      (true,
        { s with
          asyncStartTime := now
          lastReading :=
            { celsius := toInt16 (v % 65536), timestamp := now, valid := true, error := "" }
          connected := true
          consecutive0x0000Errors := 0
          slots :=
            { temp := if s.tempBound then toInt16 (v % 65536) else s.slots.temp
              validFlag := if s.validBound then true else s.slots.validFlag } }) := by
  simp only [requestTemperature, hp]
  by_cases hb1 : s.tempBound <;> by_cases hb2 : s.validBound <;>
    simp [hz, hr, hb1, hb2, hp]

lemma performRead_slots (s : State) (tr : TransportResult) (now : Nat) :
    (performRead s tr now).2.slots = s.slots := by
  match tr with
  | .err e => rfl
  | .ok [] => rfl
  | .ok (v :: rest) =>
    by_cases hz : toInt16 (v % 65536) = 0 ∨ v % 65536 = 65535
    · rw [performRead_sentinel s v rest now hz]
    · by_cases hr : toInt16 (v % 65536) < TEMP_MIN ∨ TEMP_MAX < toInt16 (v % 65536)
      · rw [performRead_range s v rest now hz hr]
      · rw [performRead_valid s v rest now hz hr]

lemma readTemperature_slots (s : State) (tr : TransportResult) (now : Nat) :
    (readTemperature s tr now).2.slots = s.slots := by
  rcases hs : (performRead s tr now).1 with _ | _
  · rw [readTemperature_of_failure s tr now hs]
    exact performRead_slots s tr now
  · rw [readTemperature_of_success s tr now hs]
    exact performRead_slots s tr now

lemma performRead_of_true (s : State) (tr : TransportResult) (now : Nat)
    (h : (performRead s tr now).1 = true) :
    (performRead s tr now).2.connected = true ∧
    (performRead s tr now).2.consecutive0x0000Errors = 0 := by
  match tr with
  | .err e => rw [performRead_err] at h ⊢; cases h
  | .ok [] => rw [performRead_nil] at h ⊢; cases h
  | .ok (v :: rest) =>
    by_cases hz : toInt16 (v % 65536) = 0 ∨ v % 65536 = 65535
    · rw [performRead_sentinel s v rest now hz] at h; cases h
    · by_cases hr : toInt16 (v % 65536) < TEMP_MIN ∨ TEMP_MAX < toInt16 (v % 65536)
      · rw [performRead_range s v rest now hz hr] at h; cases h
      · rw [performRead_valid s v rest now hz hr]
        exact ⟨rfl, rfl⟩

lemma requestTemperature_asyncStartTime (s : State) (tr : TransportResult) (now : Nat)
    (hp : s.asyncPending = false) :
    (requestTemperature s tr now).2.asyncStartTime = now := by
  match tr with
  | .err e => rw [requestTemperature_err s e now hp]
  | .ok [] => rw [requestTemperature_nil s now hp]
  | .ok (v :: rest) =>
    by_cases hz : toInt16 (v % 65536) = 0 ∨ v % 65536 = 65535
    · rw [requestTemperature_sentinel s v rest now hp hz]
    · by_cases hr : toInt16 (v % 65536) < TEMP_MIN ∨ TEMP_MAX < toInt16 (v % 65536)
      · rw [requestTemperature_range s v rest now hp hz hr]
      · rw [requestTemperature_valid s v rest now hp hz hr]

lemma readingInv_performRead (s : State) (tr : TransportResult) (now : Nat) :
    ReadingInv (performRead s tr now).2 := by
  match tr with
  | .err e => rw [performRead_err]; intro hv; cases hv
  | .ok [] => rw [performRead_nil]; intro hv; cases hv
  | .ok (v :: rest) =>
    by_cases hz : toInt16 (v % 65536) = 0 ∨ v % 65536 = 65535
    · rw [performRead_sentinel s v rest now hz]; intro hv; cases hv
    · by_cases hr : toInt16 (v % 65536) < TEMP_MIN ∨ TEMP_MAX < toInt16 (v % 65536)
      · rw [performRead_range s v rest now hz hr]; intro hv; cases hv
      · rw [performRead_valid s v rest now hz hr]; intro hv
        refine ⟨rfl, ?_, ?_⟩ <;> dsimp only <;> omega

lemma readingInv_readTemperature (s : State) (tr : TransportResult) (now : Nat) :
    ReadingInv (readTemperature s tr now).2 := by
  have h := readingInv_performRead s tr now
  rcases hs : (performRead s tr now).1 with _ | _
  · rw [readTemperature_of_failure s tr now hs]; exact h
  · rw [readTemperature_of_success s tr now hs]; exact h

lemma readingInv_requestTemperature_not_pending (s : State) (tr : TransportResult)
    (now : Nat) (hp : s.asyncPending = false) :
    ReadingInv (requestTemperature s tr now).2 := by
  match tr with
  | .err e => rw [requestTemperature_err s e now hp]; intro hv; cases hv
  | .ok [] => rw [requestTemperature_nil s now hp]; intro hv; cases hv
  | .ok (v :: rest) =>
    by_cases hz : toInt16 (v % 65536) = 0 ∨ v % 65536 = 65535
    · rw [requestTemperature_sentinel s v rest now hp hz]; intro hv; cases hv
    · by_cases hr : toInt16 (v % 65536) < TEMP_MIN ∨ TEMP_MAX < toInt16 (v % 65536)
      · rw [requestTemperature_range s v rest now hp hz hr]; intro hv; cases hv
      · rw [requestTemperature_valid s v rest now hp hz hr]; intro hv
        refine ⟨rfl, ?_, ?_⟩ <;> dsimp only <;> omega

lemma readingInv_requestTemperature (s : State) (tr : TransportResult) (now : Nat)
    (hs : ReadingInv s) :
    ReadingInv (requestTemperature s tr now).2 := by
  by_cases hp : s.asyncPending = true
  · by_cases hstale : u32sub now s.asyncStartTime > s.config.timeout
    · rw [requestTemperature_stale s tr now hp hstale]
      exact readingInv_requestTemperature_not_pending _ tr now rfl
    · rw [requestTemperature_blocked s tr now hp hstale]
      exact hs
  · exact readingInv_requestTemperature_not_pending s tr now (by simpa using hp)

/-! ## Claims -/

/-- Claim C1: for every 16-bit register value returned by a successful
transport read, `performRead` classifies the sentinels `0x0000` and
`0xFFFF` as sensor faults (reading marked invalid with a
sentinel-specific error string), any other value whose signed 16-bit
reinterpretation `v` lies in `[-400, 1250]` as Valid (stored as `v`
deci-degrees), and any remaining value as a range violation (reading
marked invalid with error "Temperature out of range"). -/
theorem c1_classification (s : State) (raw now : Nat) (h : raw < 65536) :
    (raw = 0 ∨ raw = 65535 →
      (performRead s (.ok [raw]) now).1 = false ∧
      (performRead s (.ok [raw]) now).2.lastReading.valid = false ∧
      (performRead s (.ok [raw]) now).2.lastReading.error =
        (if raw = 65535 then "Modbus error 0xFFFF" else "Sensor returned 0x0000")) ∧
    (raw ≠ 0 → raw ≠ 65535 → TEMP_MIN ≤ toInt16 raw → toInt16 raw ≤ TEMP_MAX →
      (performRead s (.ok [raw]) now).1 = true ∧
      (performRead s (.ok [raw]) now).2.lastReading.valid = true ∧
      (performRead s (.ok [raw]) now).2.lastReading.celsius = toInt16 raw) ∧
    (raw ≠ 0 → raw ≠ 65535 → (toInt16 raw < TEMP_MIN ∨ TEMP_MAX < toInt16 raw) →
      (performRead s (.ok [raw]) now).1 = false ∧
      (performRead s (.ok [raw]) now).2.lastReading.valid = false ∧
      (performRead s (.ok [raw]) now).2.lastReading.error = "Temperature out of range") := by
  have hm : raw % 65536 = raw := Nat.mod_eq_of_lt h
  refine ⟨?_, ?_, ?_⟩
  · rintro (h0 | h1)
    · subst h0; simp [performRead, toInt16]
    · subst h1; simp [performRead, toInt16]
  · intro h0 h1 hlo hhi
    have hz : ¬(toInt16 raw = 0 ∨ raw = 65535) := by
      push_neg
      exact ⟨fun hc => h0 ((toInt16_eq_zero_iff h).mp hc), h1⟩
    have hr : ¬(toInt16 raw < TEMP_MIN ∨ TEMP_MAX < toInt16 raw) := by omega
    simp [performRead, hm, hz, hr]
  · intro h0 h1 hout
    have hz : ¬(toInt16 raw = 0 ∨ raw = 65535) := by
      push_neg
      exact ⟨fun hc => h0 ((toInt16_eq_zero_iff h).mp hc), h1⟩
    simp [performRead, hm, hz, hout]

/-- Claim C1 witness: the raw value 250 (25.0 °C) is accepted and stored. -/
theorem c1_classification_witness :
    (250 : Nat) < 65536 ∧
    (performRead (mkANDRTF3 3 { temp := 0, validFlag := false }) (.ok [250]) 7).1 = true ∧
    (performRead (mkANDRTF3 3 { temp := 0, validFlag := false }) (.ok [250]) 7).2.lastReading.valid = true ∧
    (performRead (mkANDRTF3 3 { temp := 0, validFlag := false }) (.ok [250]) 7).2.lastReading.celsius = toInt16 250 :=
  ⟨by decide,
    (c1_classification (mkANDRTF3 3 { temp := 0, validFlag := false }) 250 7 (by decide)).2.1
      (by decide) (by decide) (by decide) (by decide)⟩

/-- Claim C2 counterexample: a single rejection (a range violation,
raw value 2000 > 1250) immediately flips `connected` from true to false,
with the consecutive-error counter still at 0 — the code does not
require 3 consecutive rejections for this rejection cause. -/
theorem c2_counterexample :
    (requestTemperature (mkANDRTF3 3 { temp := 0, validFlag := false })
      (.ok [250]) 0).2.connected = true ∧
    (requestTemperature (mkANDRTF3 3 { temp := 0, validFlag := false })
      (.ok [250]) 0).2.consecutive0x0000Errors = 0 ∧
    (requestTemperature
      ((requestTemperature (mkANDRTF3 3 { temp := 0, validFlag := false })
        (.ok [250]) 0).2) (.ok [2000]) 10).2.connected = false := by
  decide

/-- Claim C2 amended: the 3-strikes hysteresis applies only to
sentinel (`0x0000` / `0xFFFF`) rejections through the asynchronous entry
point, where `connected` stays true exactly while the (mod-256)
consecutive-error counter is below 3; a Valid classification resets the
counter to 0 and `connected` to true through either entry point; a range
violation sets `connected` to false immediately while leaving the
consecutive-error counter untouched, and the synchronous
entry point `readTemperature` forces `connected` to false after every
failed cycle. -/
theorem c2_amended_hysteresis (s : State) (v : Nat) (rest : List Nat) (now : Nat)
    (hp : s.asyncPending = false) :
    (toInt16 (v % 65536) = 0 ∨ v % 65536 = 65535 →
      (requestTemperature s (.ok (v :: rest)) now).2.consecutive0x0000Errors =
        (s.consecutive0x0000Errors + 1) % 256 ∧
      ((requestTemperature s (.ok (v :: rest)) now).2.connected = true ↔
        (s.consecutive0x0000Errors + 1) % 256 < 3)) ∧
    (isValidClassification (.ok (v :: rest)) →
      (requestTemperature s (.ok (v :: rest)) now).2.connected = true ∧
      (requestTemperature s (.ok (v :: rest)) now).2.consecutive0x0000Errors = 0) ∧
    (¬(toInt16 (v % 65536) = 0 ∨ v % 65536 = 65535) →
      toInt16 (v % 65536) < TEMP_MIN ∨ TEMP_MAX < toInt16 (v % 65536) →
      (requestTemperature s (.ok (v :: rest)) now).2.connected = false ∧
      (requestTemperature s (.ok (v :: rest)) now).2.consecutive0x0000Errors =
        s.consecutive0x0000Errors) ∧
    (∀ tr : TransportResult, (readTemperature s tr now).1 = false →
      (readTemperature s tr now).2.connected = false) ∧
    (∀ tr : TransportResult, (readTemperature s tr now).1 = true →
      (readTemperature s tr now).2.connected = true ∧
      (readTemperature s tr now).2.consecutive0x0000Errors = 0) := by
  refine ⟨?_, ?_, ?_, ?_, ?_⟩
  · intro hz
    rw [requestTemperature_sentinel s v rest now hp hz]
    dsimp only
    exact ⟨rfl, by simp⟩
  · intro hval
    obtain ⟨hz, hlo, hhi⟩ := hval
    rw [requestTemperature_valid s v rest now hp hz (by omega)]
    exact ⟨rfl, rfl⟩
  · intro hz hr
    rw [requestTemperature_range s v rest now hp hz hr]
    exact ⟨rfl, rfl⟩
  · intro tr hf
    rw [readTemperature_fst] at hf
    rw [readTemperature_of_failure s tr now hf]
  · intro tr ht
    rw [readTemperature_fst] at ht
    rw [readTemperature_of_success s tr now ht]
    exact performRead_of_true s tr now ht

/-- Claim C2 amended witness: a first sentinel rejection from the
initial state leaves the counter at 1 and `connected` true. -/
theorem c2_amended_hysteresis_witness :
    (requestTemperature (mkANDRTF3 3 { temp := 0, validFlag := false })
        (.ok [0]) 0).2.consecutive0x0000Errors =
      ((mkANDRTF3 3 { temp := 0, validFlag := false }).consecutive0x0000Errors + 1) % 256 ∧
    ((requestTemperature (mkANDRTF3 3 { temp := 0, validFlag := false })
        (.ok [0]) 0).2.connected = true ↔
      ((mkANDRTF3 3 { temp := 0, validFlag := false }).consecutive0x0000Errors + 1) % 256 < 3) :=
  (c2_amended_hysteresis (mkANDRTF3 3 { temp := 0, validFlag := false }) 0 [] 0 rfl).1
    (by decide)

/-- Claim C3 counterexample: with both slots bound, a Valid(100) cycle
via `requestTemperature` writes the slots, but a subsequent sensor-fault
cycle leaves the valid slot holding true — the code never writes false
into the valid slot on these paths, contrary to the claim. -/
theorem c3_counterexample :
    (requestTemperature (bindTemperaturePointers
        (mkANDRTF3 3 { temp := 0, validFlag := false }) true true)
      (.ok [100]) 5).2.slots = { temp := 100, validFlag := true } ∧
    (requestTemperature
      ((requestTemperature (bindTemperaturePointers
          (mkANDRTF3 3 { temp := 0, validFlag := false }) true true)
        (.ok [100]) 5).2) (.ok [0]) 10).2.slots.validFlag = true := by
  decide

/-- Claim C3 amended: with both slots bound, a Valid(v) cycle through
the asynchronous entry point ends with the value slot holding `v` and
the valid slot holding true; a rejection cycle through the asynchronous
entry point leaves both slots unchanged (the valid slot is not
cleared); and the synchronous entry point `readTemperature` never
writes the slots at all. -/
theorem c3_amended_binding (s : State) (v : Nat) (rest : List Nat) (now : Nat)
    (hb1 : s.tempBound = true) (hb2 : s.validBound = true)
    (hp : s.asyncPending = false) :
    ((requestTemperature s (.ok (v :: rest)) now).1 = true →
      (requestTemperature s (.ok (v :: rest)) now).2.slots =
        { temp := toInt16 (v % 65536), validFlag := true }) ∧
    ((requestTemperature s (.ok (v :: rest)) now).1 = false →
      (requestTemperature s (.ok (v :: rest)) now).2.slots = s.slots) ∧
    (∀ tr : TransportResult, ∀ t : Nat, (readTemperature s tr t).2.slots = s.slots) := by
  refine ⟨?_, ?_, fun tr t => readTemperature_slots s tr t⟩
  · intro ht
    by_cases hz : toInt16 (v % 65536) = 0 ∨ v % 65536 = 65535
    · rw [requestTemperature_sentinel s v rest now hp hz] at ht; cases ht
    · by_cases hr : toInt16 (v % 65536) < TEMP_MIN ∨ TEMP_MAX < toInt16 (v % 65536)
      · rw [requestTemperature_range s v rest now hp hz hr] at ht; cases ht
      · rw [requestTemperature_valid s v rest now hp hz hr]
        dsimp only
        rw [hb1, hb2]
        simp
  · intro hf
    by_cases hz : toInt16 (v % 65536) = 0 ∨ v % 65536 = 65535
    · rw [requestTemperature_sentinel s v rest now hp hz]
    · by_cases hr : toInt16 (v % 65536) < TEMP_MIN ∨ TEMP_MAX < toInt16 (v % 65536)
      · rw [requestTemperature_range s v rest now hp hz hr]
      · rw [requestTemperature_valid s v rest now hp hz hr] at hf; cases hf

/-- Claim C3 amended witness: a Valid(100) cycle with both slots bound
publishes value 100 and validity true. -/
theorem c3_amended_binding_witness :
    (requestTemperature (bindTemperaturePointers
        (mkANDRTF3 3 { temp := 0, validFlag := false }) true true)
      (.ok [100]) 5).2.slots = { temp := toInt16 (100 % 65536), validFlag := true } :=
  (c3_amended_binding (bindTemperaturePointers
      (mkANDRTF3 3 { temp := 0, validFlag := false }) true true) 100 [] 5
    rfl rfl rfl).1 (by decide)

/-- Claim C4: every acquisition cycle whose classification is a
rejection (sentinel or range violation) leaves the stored temperature
value and its timestamp unchanged, marks the reading invalid and sets a
non-empty error text, through both `performRead` (used by the
synchronous entry point) and `requestTemperature`. -/
theorem c4_stale_on_failure (s : State) (v : Nat) (rest : List Nat) (now : Nat) :
    ((performRead s (.ok (v :: rest)) now).1 = false →
      (performRead s (.ok (v :: rest)) now).2.lastReading.celsius = s.lastReading.celsius ∧
      (performRead s (.ok (v :: rest)) now).2.lastReading.timestamp = s.lastReading.timestamp ∧
      (performRead s (.ok (v :: rest)) now).2.lastReading.valid = false ∧
      (performRead s (.ok (v :: rest)) now).2.lastReading.error ≠ "") ∧
    (s.asyncPending = false →
      (requestTemperature s (.ok (v :: rest)) now).1 = false →
      (requestTemperature s (.ok (v :: rest)) now).2.lastReading.celsius = s.lastReading.celsius ∧
      (requestTemperature s (.ok (v :: rest)) now).2.lastReading.timestamp = s.lastReading.timestamp ∧
      (requestTemperature s (.ok (v :: rest)) now).2.lastReading.valid = false ∧
      (requestTemperature s (.ok (v :: rest)) now).2.lastReading.error ≠ "") := by
  constructor
  · intro hf
    by_cases hz : toInt16 (v % 65536) = 0 ∨ v % 65536 = 65535
    · rw [performRead_sentinel s v rest now hz]
      refine ⟨rfl, rfl, rfl, ?_⟩
      dsimp only
      split <;> decide
    · by_cases hr : toInt16 (v % 65536) < TEMP_MIN ∨ TEMP_MAX < toInt16 (v % 65536)
      · rw [performRead_range s v rest now hz hr]
        refine ⟨rfl, rfl, rfl, ?_⟩
        dsimp only
        decide
      · rw [performRead_valid s v rest now hz hr] at hf; cases hf
  · intro hp hf
    by_cases hz : toInt16 (v % 65536) = 0 ∨ v % 65536 = 65535
    · rw [requestTemperature_sentinel s v rest now hp hz]
      refine ⟨rfl, rfl, rfl, ?_⟩
      dsimp only
      split <;> decide
    · by_cases hr : toInt16 (v % 65536) < TEMP_MIN ∨ TEMP_MAX < toInt16 (v % 65536)
      · rw [requestTemperature_range s v rest now hp hz hr]
        refine ⟨rfl, rfl, rfl, ?_⟩
        dsimp only
        decide
      · rw [requestTemperature_valid s v rest now hp hz hr] at hf; cases hf

/-- Claim C4 witness: after a Valid(100) cycle, a sensor-fault cycle
keeps the stored value 100 and its timestamp while marking the reading
invalid. -/
theorem c4_stale_on_failure_witness :
    (requestTemperature (mkANDRTF3 3 { temp := 0, validFlag := false })
      (.ok [100]) 5).2.lastReading.celsius = 100 ∧
    ((performRead ((requestTemperature (mkANDRTF3 3 { temp := 0, validFlag := false })
        (.ok [100]) 5).2) (.ok [0]) 10).2.lastReading.celsius =
      (requestTemperature (mkANDRTF3 3 { temp := 0, validFlag := false })
        (.ok [100]) 5).2.lastReading.celsius ∧
     (performRead ((requestTemperature (mkANDRTF3 3 { temp := 0, validFlag := false })
        (.ok [100]) 5).2) (.ok [0]) 10).2.lastReading.timestamp =
      (requestTemperature (mkANDRTF3 3 { temp := 0, validFlag := false })
        (.ok [100]) 5).2.lastReading.timestamp ∧
     (performRead ((requestTemperature (mkANDRTF3 3 { temp := 0, validFlag := false })
        (.ok [100]) 5).2) (.ok [0]) 10).2.lastReading.valid = false ∧
     (performRead ((requestTemperature (mkANDRTF3 3 { temp := 0, validFlag := false })
        (.ok [100]) 5).2) (.ok [0]) 10).2.lastReading.error ≠ "") :=
  ⟨by decide,
    (c4_stale_on_failure ((requestTemperature (mkANDRTF3 3 { temp := 0, validFlag := false })
      (.ok [100]) 5).2) 0 [] 10).1 (by decide)⟩

/-- Claim C5: the synchronous entry point `readTemperature` returns true
if and only if the cycle produced a Valid classification: transport
success, a non-empty register list, a non-sentinel value, and a signed
value inside `[-400, 1250]`. -/
theorem c5_sync_result_iff_valid (s : State) (tr : TransportResult) (now : Nat) :
    (readTemperature s tr now).1 = true ↔ isValidClassification tr := by
  rw [readTemperature_fst]
  match tr with
  | .err e => rw [performRead_err]; simp [isValidClassification]
  | .ok [] => rw [performRead_nil]; simp [isValidClassification]
  | .ok (v :: rest) =>
    by_cases hz : toInt16 (v % 65536) = 0 ∨ v % 65536 = 65535
    · rw [performRead_sentinel s v rest now hz]
      simp [isValidClassification, hz]
    · by_cases hr : toInt16 (v % 65536) < TEMP_MIN ∨ TEMP_MAX < toInt16 (v % 65536)
      · rw [performRead_range s v rest now hz hr]
        simp only [isValidClassification]
        constructor
        · intro hc; cases hc
        · intro hc; omega
      · rw [performRead_valid s v rest now hz hr]
        simp only [isValidClassification]
        constructor
        · intro _; exact ⟨hz, by omega, by omega⟩
        · intro _; trivial

/-- Claim C6: on a transport-level error, both entry paths return
false, keep the stored temperature value and timestamp unchanged, mark
the reading invalid, and set the error text to the display string of
the transport error. -/
theorem c6_transport_error_frame (s : State) (e : ModbusError) (now : Nat) :
    ((performRead s (.err e) now).1 = false ∧
     (performRead s (.err e) now).2.lastReading.celsius = s.lastReading.celsius ∧
     (performRead s (.err e) now).2.lastReading.timestamp = s.lastReading.timestamp ∧
     (performRead s (.err e) now).2.lastReading.valid = false ∧
     (performRead s (.err e) now).2.lastReading.error = modbusErrorToString e) ∧
    (s.asyncPending = false →
      (requestTemperature s (.err e) now).1 = false ∧
      (requestTemperature s (.err e) now).2.lastReading.celsius = s.lastReading.celsius ∧
      (requestTemperature s (.err e) now).2.lastReading.timestamp = s.lastReading.timestamp ∧
      (requestTemperature s (.err e) now).2.lastReading.valid = false ∧
      (requestTemperature s (.err e) now).2.lastReading.error = modbusErrorToString e) := by
  constructor
  · rw [performRead_err]
    exact ⟨rfl, rfl, rfl, rfl, rfl⟩
  · intro hp
    rw [requestTemperature_err s e now hp]
    exact ⟨rfl, rfl, rfl, rfl, rfl⟩

/-- Claim C6 witness: a timeout error on the initial state surfaces as
"Timeout" and changes neither value nor timestamp, on both paths. -/
theorem c6_transport_error_frame_witness :
    ((performRead (mkANDRTF3 3 { temp := 0, validFlag := false }) (.err .TIMEOUT) 3).1 = false ∧
     (performRead (mkANDRTF3 3 { temp := 0, validFlag := false }) (.err .TIMEOUT) 3).2.lastReading.celsius =
       (mkANDRTF3 3 { temp := 0, validFlag := false }).lastReading.celsius ∧
     (performRead (mkANDRTF3 3 { temp := 0, validFlag := false }) (.err .TIMEOUT) 3).2.lastReading.timestamp =
       (mkANDRTF3 3 { temp := 0, validFlag := false }).lastReading.timestamp ∧
     (performRead (mkANDRTF3 3 { temp := 0, validFlag := false }) (.err .TIMEOUT) 3).2.lastReading.valid = false ∧
     (performRead (mkANDRTF3 3 { temp := 0, validFlag := false }) (.err .TIMEOUT) 3).2.lastReading.error =
       modbusErrorToString .TIMEOUT) ∧
    ((requestTemperature (mkANDRTF3 3 { temp := 0, validFlag := false }) (.err .TIMEOUT) 3).1 = false ∧
     (requestTemperature (mkANDRTF3 3 { temp := 0, validFlag := false }) (.err .TIMEOUT) 3).2.lastReading.celsius =
       (mkANDRTF3 3 { temp := 0, validFlag := false }).lastReading.celsius ∧
     (requestTemperature (mkANDRTF3 3 { temp := 0, validFlag := false }) (.err .TIMEOUT) 3).2.lastReading.timestamp =
       (mkANDRTF3 3 { temp := 0, validFlag := false }).lastReading.timestamp ∧
     (requestTemperature (mkANDRTF3 3 { temp := 0, validFlag := false }) (.err .TIMEOUT) 3).2.lastReading.valid = false ∧
     (requestTemperature (mkANDRTF3 3 { temp := 0, validFlag := false }) (.err .TIMEOUT) 3).2.lastReading.error =
       modbusErrorToString .TIMEOUT) :=
  ⟨(c6_transport_error_frame (mkANDRTF3 3 { temp := 0, validFlag := false }) .TIMEOUT 3).1,
   (c6_transport_error_frame (mkANDRTF3 3 { temp := 0, validFlag := false }) .TIMEOUT 3).2 rfl⟩

/-- Claim C7: while an async cycle is pending, `requestTemperature`
returns false and leaves the state untouched as long as the elapsed
time has not exceeded the configured timeout; once the elapsed time
exceeds the timeout the pending cycle is abandoned and a fresh cycle is
begun (the call behaves exactly as from a non-pending state and records
the new start time). -/
theorem c7_async_pending_gate (s : State) (tr : TransportResult) (now : Nat)
    (hp : s.asyncPending = true) :
    (u32sub now s.asyncStartTime ≤ s.config.timeout →
      requestTemperature s tr now = (false, s)) ∧
    (u32sub now s.asyncStartTime > s.config.timeout →
      requestTemperature s tr now =
        requestTemperature { s with asyncPending := false } tr now ∧
      (requestTemperature s tr now).2.asyncStartTime = now) := by
  constructor
  · intro hle
    exact requestTemperature_blocked s tr now hp (by omega)
  · intro hgt
    have hst := requestTemperature_stale s tr now hp hgt
    refine ⟨hst, ?_⟩
    rw [hst]
    exact requestTemperature_asyncStartTime _ tr now rfl

/-- Claim C7 witness: with a cycle pending for 5 ms against a 200 ms
timeout, a new request is refused and the state is unchanged. -/
theorem c7_async_pending_gate_witness :
    requestTemperature
        { mkANDRTF3 3 { temp := 0, validFlag := false } with
          asyncPending := true, asyncStartTime := 5 } (.ok [250]) 10 =
      (false,
        { mkANDRTF3 3 { temp := 0, validFlag := false } with
          asyncPending := true, asyncStartTime := 5 }) :=
  (c7_async_pending_gate _ (.ok [250]) 10 rfl).1 (by decide)

/-- Claim C8: in every state reachable through construction,
configuration, binding, synchronous reads and async requests, a valid
reading has an empty error text and a value inside `[-400, 1250]`. -/
theorem c8_reading_invariant (s : State) (h : Reachable s) : ReadingInv s := by
  induction h with
  | init address cells => intro hv; cases hv
  | setCfg s c _ ih => exact ih
  | bindPtrs s tb vb _ ih => exact ih
  | syncRead s tr now _ _ => exact readingInv_readTemperature s tr now
  | asyncReq s tr now _ ih => exact readingInv_requestTemperature s tr now ih

/-- Claim C8 witness: the state after one successful synchronous read
from the initial state is reachable and satisfies the invariant. -/
theorem c8_reading_invariant_witness :
    ReadingInv ((readTemperature (mkANDRTF3 3 { temp := 0, validFlag := false })
      (.ok [250]) 7).2) :=
  c8_reading_invariant _
    (Reachable.syncRead _ _ _ (Reachable.init 3 { temp := 0, validFlag := false }))

/-- Claim C9 counterexample: constructing with address 0 stores address
0, outside the claimed range `[1, 247]` — neither the constructor nor
`setConfig` validates. -/
theorem c9_counterexample :
    ¬(1 ≤ (mkANDRTF3 0 { temp := 0, validFlag := false }).config.address) := by
  decide

/-- Claim C9 amended: the config invariant (address in `[1, 247]`,
timeout strictly positive) holds in every state reachable through
construction and `setConfig` calls provided the construction address is
in `[1, 247]` and every `setConfig` argument itself satisfies the
invariant; the code performs no validation of its own. -/
theorem c9_amended_config_invariant (s : State) (h : ConfigReachable s) :
    ConfigOK s.config := by
  induction h with
  | init address cells h1 h2 =>
    refine ⟨?_, ?_, ?_⟩ <;> dsimp [mkANDRTF3, getDefaultConfig] <;> omega
  | setCfg s c h hc ih => exact hc

/-- Claim C9 amended witness: the state constructed with the default
address 3 satisfies the config invariant. -/
theorem c9_amended_config_invariant_witness :
    ConfigOK (mkANDRTF3 3 { temp := 0, validFlag := false }).config :=
  c9_amended_config_invariant _
    (ConfigReachable.init 3 { temp := 0, validFlag := false } (by decide) (by decide))

/-- Claim C10: a successful transport call that returns an empty
register sequence makes both entry paths return false, mark the reading
invalid with error "No data returned" (a string distinct from every
transport-error display string), set `connected` to false, and leave
the stored value and timestamp unchanged. -/
theorem c10_empty_response (s : State) (now : Nat) :
    ((performRead s (.ok []) now).1 = false ∧
     (performRead s (.ok []) now).2.lastReading.celsius = s.lastReading.celsius ∧
     (performRead s (.ok []) now).2.lastReading.timestamp = s.lastReading.timestamp ∧
     (performRead s (.ok []) now).2.lastReading.valid = false ∧
     (performRead s (.ok []) now).2.lastReading.error = "No data returned" ∧
     (performRead s (.ok []) now).2.connected = false ∧
     (∀ e : ModbusError, (performRead s (.ok []) now).2.lastReading.error ≠
        modbusErrorToString e)) ∧
    (s.asyncPending = false →
      (requestTemperature s (.ok []) now).1 = false ∧
      (requestTemperature s (.ok []) now).2.lastReading.celsius = s.lastReading.celsius ∧
      (requestTemperature s (.ok []) now).2.lastReading.timestamp = s.lastReading.timestamp ∧
      (requestTemperature s (.ok []) now).2.lastReading.valid = false ∧
      (requestTemperature s (.ok []) now).2.lastReading.error = "No data returned" ∧
      (requestTemperature s (.ok []) now).2.connected = false) := by
  constructor
  · rw [performRead_nil]
    refine ⟨rfl, rfl, rfl, rfl, rfl, rfl, ?_⟩
    intro e
    dsimp only
    cases e <;> decide
  · intro hp
    rw [requestTemperature_nil s now hp]
    exact ⟨rfl, rfl, rfl, rfl, rfl, rfl⟩

/-- Claim C10 witness: an empty register list on the initial state
yields "No data returned" and a disconnected, invalid reading on both
paths. -/
theorem c10_empty_response_witness :
    ((performRead (mkANDRTF3 3 { temp := 0, validFlag := false }) (.ok []) 4).1 = false ∧
     (performRead (mkANDRTF3 3 { temp := 0, validFlag := false }) (.ok []) 4).2.lastReading.celsius =
       (mkANDRTF3 3 { temp := 0, validFlag := false }).lastReading.celsius ∧
     (performRead (mkANDRTF3 3 { temp := 0, validFlag := false }) (.ok []) 4).2.lastReading.timestamp =
       (mkANDRTF3 3 { temp := 0, validFlag := false }).lastReading.timestamp ∧
     (performRead (mkANDRTF3 3 { temp := 0, validFlag := false }) (.ok []) 4).2.lastReading.valid = false ∧
     (performRead (mkANDRTF3 3 { temp := 0, validFlag := false }) (.ok []) 4).2.lastReading.error = "No data returned" ∧
     (performRead (mkANDRTF3 3 { temp := 0, validFlag := false }) (.ok []) 4).2.connected = false ∧
     (∀ e : ModbusError, (performRead (mkANDRTF3 3 { temp := 0, validFlag := false }) (.ok []) 4).2.lastReading.error ≠
        modbusErrorToString e)) ∧
    ((requestTemperature (mkANDRTF3 3 { temp := 0, validFlag := false }) (.ok []) 4).1 = false ∧
     (requestTemperature (mkANDRTF3 3 { temp := 0, validFlag := false }) (.ok []) 4).2.lastReading.celsius =
       (mkANDRTF3 3 { temp := 0, validFlag := false }).lastReading.celsius ∧
     (requestTemperature (mkANDRTF3 3 { temp := 0, validFlag := false }) (.ok []) 4).2.lastReading.timestamp =
       (mkANDRTF3 3 { temp := 0, validFlag := false }).lastReading.timestamp ∧
     (requestTemperature (mkANDRTF3 3 { temp := 0, validFlag := false }) (.ok []) 4).2.lastReading.valid = false ∧
     (requestTemperature (mkANDRTF3 3 { temp := 0, validFlag := false }) (.ok []) 4).2.lastReading.error = "No data returned" ∧
     (requestTemperature (mkANDRTF3 3 { temp := 0, validFlag := false }) (.ok []) 4).2.connected = false) :=
  ⟨(c10_empty_response (mkANDRTF3 3 { temp := 0, validFlag := false }) 4).1,
   (c10_empty_response (mkANDRTF3 3 { temp := 0, validFlag := false }) 4).2 rfl⟩

end ANDRTF3
